import Mathlib

/-!
Shallow embedding of the single-instance coordination subsystem of this
repository, from src/3rdparty/singleapplication/singleapplication_p.cpp and
src/3rdparty/singleapplication/singlecoreapplication_p.cpp.

Bytes are modelled as natural numbers below 256; byte strings as lists of
naturals. Machine integers are naturals with explicit reduction modulo
powers of two where the C++ code overflows. Qt library routines used by the
code (qChecksum, QCryptographicHash with Sha256, QByteArray toBase64,
QDataStream serialization with the Qt_5_8 big endian format, qstrncpy) are
embedded by their documented, well known algorithms so that everything is
executable.
-/

/-- Big endian encoding of a natural number into w bytes, as produced by
QDataStream for fixed width unsigned integers (Qt_5_8 default byte order). -/
def encodeBE : Nat → Nat → List Nat
  | 0, _ => []
  | w + 1, n => encodeBE w (n / 256) ++ [n % 256]

/-- Big endian decoding of a byte list into a natural number. -/
def decodeBE (bs : List Nat) : Nat :=
  bs.foldl (fun a b => a * 256 + b) 0

/-- Little endian encoding of a natural number into w bytes, used for the
in memory layout of the shared block fields. -/
def encodeLE : Nat → Nat → List Nat
  | 0, _ => []
  | w + 1, n => n % 256 :: encodeLE w (n / 256)

/-- Two complement little endian encoding of a signed 64 bit integer. -/
def encodeI64LE (p : Int) : List Nat :=
  encodeLE 8 (p % (2 ^ 64 : Nat)).toNat

/-- The sixteen entry table of the CRC-16 routine behind the Qt function
qChecksum, exactly the crc_tbl array of the Qt sources. -/
def crcTbl : List Nat :=
  [0x0000, 0x1081, 0x2102, 0x3183, 0x4204, 0x5285, 0x6306, 0x7387,
   0x8408, 0x9489, 0xa50a, 0xb58b, 0xc60c, 0xd68d, 0xe70e, 0xf78f]

/-- One byte of the qChecksum loop: two nibble steps through the table. -/
def crcStep (crc c : Nat) : Nat :=
  let crc1 := Nat.xor (crc / 16 % 4096) (crcTbl.getD (Nat.xor crc c % 16) 0)
  Nat.xor (crc1 / 16 % 4096) (crcTbl.getD (Nat.xor crc1 (c / 16) % 16) 0)

/-- The Qt function qChecksum over a byte list: CRC-16 with initial value
0xffff and complemented result, as called by the code for the shared block
checksum and the handshake message checksum. -/
def qChecksum (bytes : List Nat) : Nat :=
  Nat.xor (bytes.foldl crcStep 0xffff) 0xffff

/-! SHA-256, the algorithm selected by QCryptographicHash Sha256 in
genBlockServerName. Words are naturals kept below 2 to the 32. -/

/-- Addition modulo 2 to the 32. -/
def add32 (a b : Nat) : Nat := (a + b) % 4294967296

/-- Right rotation of a 32 bit word by n places. -/
def rotr32 (n a : Nat) : Nat := a / 2 ^ n + a % 2 ^ n * 2 ^ (32 - n)

/-- Logical right shift of a 32 bit word by n places. -/
def shr32 (n a : Nat) : Nat := a / 2 ^ n

/-- Bitwise complement of a 32 bit word. -/
def not32 (a : Nat) : Nat := Nat.xor a 4294967295

/-- SHA-256 big sigma 0. -/
def bsig0 (x : Nat) : Nat :=
  Nat.xor (rotr32 2 x) (Nat.xor (rotr32 13 x) (rotr32 22 x))

/-- SHA-256 big sigma 1. -/
def bsig1 (x : Nat) : Nat :=
  Nat.xor (rotr32 6 x) (Nat.xor (rotr32 11 x) (rotr32 25 x))

/-- SHA-256 small sigma 0. -/
def ssig0 (x : Nat) : Nat :=
  Nat.xor (rotr32 7 x) (Nat.xor (rotr32 18 x) (shr32 3 x))

/-- SHA-256 small sigma 1. -/
def ssig1 (x : Nat) : Nat :=
  Nat.xor (rotr32 17 x) (Nat.xor (rotr32 19 x) (shr32 10 x))

/-- SHA-256 choice function. -/
def chf (x y z : Nat) : Nat :=
  Nat.xor (Nat.land x y) (Nat.land (not32 x) z)

/-- SHA-256 majority function. -/
def majf (x y z : Nat) : Nat :=
  Nat.xor (Nat.land x y) (Nat.xor (Nat.land x z) (Nat.land y z))

/-- The 64 SHA-256 round constants. -/
def sha256K : List Nat :=
  [1116352408, 1899447441, 3049323471, 3921009573, 961987163,
   1508970993, 2453635748, 2870763221, 3624381080, 310598401,
   607225278, 1426881987, 1925078388, 2162078206, 2614888103,
   3248222580, 3835390401, 4022224774, 264347078, 604807628,
   770255983, 1249150122, 1555081692, 1996064986, 2554220882,
   2821834349, 2952996808, 3210313671, 3336571891, 3584528711,
   113926993, 338241895, 666307205, 773529912, 1294757372,
   1396182291, 1695183700, 1986661051, 2177026350, 2456956037,
   2730485921, 2820302411, 3259730800, 3345764771, 3516065817,
   3600352804, 4094571909, 275423344, 430227734, 506948616,
   659060556, 883997877, 958139571, 1322822218, 1537002063,
   1747873779, 1955562222, 2024104815, 2227730452, 2361852424,
   2428436474, 2756734187, 3204031479, 3329325298]

/-- The eight SHA-256 initial hash words. -/
def sha256Init : List Nat :=
  [1779033703, 3144134277, 1013904242, 2773480762,
   1359893119, 2600822924, 528734635, 1541459225]

/-- SHA-256 message padding: one 0x80 byte, zeros to 56 modulo 64, then the
bit length as eight big endian bytes. -/
def padMsg (m : List Nat) : List Nat :=
  m ++ [128] ++ List.replicate ((119 - m.length % 64) % 64) 0 ++ encodeBE 8 (8 * m.length)

/-- Split a byte list into 64 byte blocks. -/
def chunk64 (m : List Nat) : List (List Nat) :=
  if _h : m.length = 0 then []
  else m.take 64 :: chunk64 (m.drop 64)
termination_by m.length
decreasing_by simp [List.length_drop]; omega

/-- Group bytes four at a time into big endian 32 bit words. -/
def bytesToWords : List Nat → List Nat
  | b0 :: b1 :: b2 :: b3 :: rest =>
      (((b0 * 256 + b1) * 256 + b2) * 256 + b3) :: bytesToWords rest
  | _ => []

/-- Extend the sixteen block words by n further schedule words. -/
def extendW : List Nat → Nat → List Nat
  | w, 0 => w
  | w, n + 1 =>
      extendW (w ++ [add32 (ssig1 (w.getD (w.length - 2) 0))
        (add32 (w.getD (w.length - 7) 0)
          (add32 (ssig0 (w.getD (w.length - 15) 0)) (w.getD (w.length - 16) 0)))]) n

/-- One SHA-256 compression round on the eight word working state. -/
def roundStep (k w : Nat) (s : List Nat) : List Nat :=
  match s with
  | [a, b, c, d, e, f, g, h] =>
      let t1 := add32 h (add32 (bsig1 e) (add32 (chf e f g) (add32 k w)))
      let t2 := add32 (bsig0 a) (majf a b c)
      [add32 t1 t2, a, b, c, add32 d t1, e, f, g]
  | s => s

/-- Compress one 64 byte block into the running hash value. -/
def compressBlock (hv : List Nat) (block : List Nat) : List Nat :=
  let ws := extendW (bytesToWords block) 48
  let fin := List.foldl (fun s kw => roundStep kw.1 kw.2 s) hv (sha256K.zip ws)
  List.zipWith add32 hv fin

/-- SHA-256 digest of a byte list, as 32 bytes. -/
def sha256 (m : List Nat) : List Nat :=
  ((chunk64 (padMsg m)).foldl compressBlock sha256Init).foldr
    (fun w acc => encodeBE 4 w ++ acc) []

/-- The 64 character RFC 2045 Base64 alphabet as bytes. -/
def base64Alphabet : List Nat :=
  [65, 66, 67, 68, 69, 70, 71, 72, 73, 74, 75, 76, 77, 78, 79, 80,
   81, 82, 83, 84, 85, 86, 87, 88, 89, 90, 97, 98, 99, 100, 101, 102,
   103, 104, 105, 106, 107, 108, 109, 110, 111, 112, 113, 114, 115, 116, 117, 118,
   119, 120, 121, 122, 48, 49, 50, 51, 52, 53, 54, 55, 56, 57, 43, 47]

/-- Look up one Base64 alphabet character. -/
def b64char (n : Nat) : Nat := base64Alphabet.getD n 65

/-- RFC 2045 Base64 encoding with padding, the QByteArray toBase64 format. -/
def base64Encode : List Nat → List Nat
  | b0 :: b1 :: b2 :: rest =>
      b64char (b0 / 4) :: b64char (b0 % 4 * 16 + b1 / 16) ::
      b64char (b1 % 16 * 4 + b2 / 64) :: b64char (b2 % 64) :: base64Encode rest
  | [b0, b1] => [b64char (b0 / 4), b64char (b0 % 4 * 16 + b1 / 16), b64char (b1 % 16 * 4), 61]
  | [b0] => [b64char (b0 / 4), b64char (b0 % 4 * 16), 61, 61]
  | [] => []

/-! Data model. -/

/-- Identity facts consumed by genBlockServerName: the Qt application
metadata strings as UTF-8 bytes, the APPIMAGE environment value as returned
by qgetenv (empty when unset), and the username resolved by getUsername. -/
structure AppIdentity where
  applicationName : List Nat
  organizationName : List Nat
  organizationDomain : List Nat
  applicationVersion : List Nat
  applicationFilePath : List Nat
  appimageEnv : List Nat
  username : List Nat
deriving DecidableEq

/-- The option flags of the options_ bitfield that the embedded code reads:
Mode ExcludeAppVersion, Mode ExcludeAppPath, Mode User and
Mode SecondaryNotification. -/
structure SAOptions where
  excludeAppVersion : Bool
  excludeAppPath : Bool
  userMode : Bool
  secondaryNotification : Bool
deriving DecidableEq

/-- Modelled from the spec: the InstancesInfo struct of the shared block is
declared in singleapplication_p.h, which is not under src. The spec fixes
the layout: is_primary flag, unsigned 32 bit secondary count, signed 64 bit
primary process id, fixed size primary owner byte buffer, 16 bit checksum
of all preceding bytes. -/
structure InstancesInfo where
  primary : Bool
  secondary : Nat
  primaryPid : Int
  primaryUser : List Nat
  checksum : Nat
deriving DecidableEq

/-- Modelled from the spec: the capacity of the fixed size primary owner
buffer, whose exact value the spec leaves open; 128 as in the upstream
header. -/
def primaryUserSize : Nat := 128

/-- One byte view of a bool field of the shared block. -/
def boolByte (b : Bool) : Nat := if b then 1 else 0

/-- The bytes of the shared block that precede the checksum field, in
declaration order, the range covered by offsetof InstancesInfo checksum. -/
def blockBytesBeforeChecksum (st : InstancesInfo) : List Nat :=
  boolByte st.primary :: (encodeLE 4 (st.secondary % 4294967296) ++
    (encodeI64LE st.primaryPid ++ st.primaryUser))

/-- The Qt function qstrncpy into a buffer of the given capacity: at most
capacity many bytes of the source are copied, the remainder is filled with
zeros, and the final byte is forced to zero. -/
def qstrncpyBuf (src : List Nat) (cap : Nat) : List Nat :=
  src.take (cap - 1) ++ List.replicate (cap - min src.length (cap - 1)) 0

/-- Write a zero into the first byte of a buffer, the effect of the
primaryUser zero assignment in the code. -/
def setHead0 : List Nat → List Nat
  | [] => []
  | _ :: t => 0 :: t

/-- Modelled from the spec: the ConnectionType tags of the wire protocol
are declared in the header, which is not under src. The spec lists an
invalid sentinel, NewInstance, SecondaryInstance and a reserved reconnect
value; numbered in that order as in the upstream enum. -/
def InvalidConnection : Nat := 0

/-- Tag of a fresh launch that wants the primary to treat it as activate. -/
def NewInstance : Nat := 1

/-- Tag of a fresh launch that notifies only when configured to. -/
def SecondaryInstance : Nat := 2

/-- Reserved reconnect tag. -/
def Reconnect : Nat := 3

/-- The per connection processing stage of the listener state machine. -/
inductive ConnectionStage where
  | StageInitHeader
  | StageInitBody
  | StageConnectedHeader
  | StageConnectedBody
deriving DecidableEq

/-- Signals emitted by the listener towards the hosting application. -/
inductive Event where
  | instanceStarted
  | receivedMessage (instanceId : Nat) (payload : List Nat)
deriving DecidableEq

/-- Per connection state of the listener: the ConnectionInfo record of the
code together with the bytes currently buffered on the socket and a closed
flag standing for a socket the listener has closed. -/
structure ConnState where
  stage : ConnectionStage
  msgLen : Nat
  instanceId : Nat
  buffer : List Nat
  closed : Bool
deriving DecidableEq

/-- The listener configuration read by the connection handlers: its own
block server name and the secondary notification option. -/
structure ListenerCfg where
  blockServerName : List Nat
  secondaryNotification : Bool
deriving DecidableEq

/-- A freshly accepted connection as registered by the code: stage
StageInitHeader, no buffered bytes. -/
def freshConn : ConnState :=
  { stage := ConnectionStage.StageInitHeader, msgLen := 0, instanceId := 0,
    buffer := [], closed := false }

/-- One iteration of the secondary connect loop as seen by the embedding:
the jitter seed drawn by randomSleep, the time the bounded wait for the
connection consumes, and whether the socket is connected afterwards. -/
structure ConnectAttempt where
  jitterSeed : Nat
  waitTime : Nat
  connects : Bool

/-- Result of one confirmed frame or message write: the frames that were
written to the socket, whether the final acknowledgment arrived in time,
and the time the waits consumed. -/
structure SendStep where
  frames : List (List Nat)
  ok : Bool
  elapsed : Nat
deriving DecidableEq

/-! Parsing helpers for the QDataStream reads of readInitMessageBody.
A result of none stands for a stream status other than Ok. -/

/-- Read one byte, QDataStream quint8. -/
def readU8 (b : List Nat) : Option (Nat × List Nat) :=
  match b with
  | [] => none
  | x :: r => some (x, r)

/-- Read a big endian 32 bit word, QDataStream quint32. -/
def readU32BE (b : List Nat) : Option (Nat × List Nat) :=
  if b.length < 4 then none else some (decodeBE (b.take 4), b.drop 4)

/-- Read a big endian 16 bit word, QDataStream quint16. -/
def readU16BE (b : List Nat) : Option (Nat × List Nat) :=
  if b.length < 2 then none else some (decodeBE (b.take 2), b.drop 2)

/-- Read a serialized QByteArray: a 32 bit length, the sentinel 0xffffffff
for the null array, followed by that many raw bytes. -/
def readByteArray (b : List Nat) : Option (List Nat × List Nat) :=
  match readU32BE b with
  | none => none
  | some (len, rest) =>
    if len = 4294967295 then some ([], rest)
    else if rest.length < len then none
    else some (rest.take len, rest.drop len)

/-- Parse the handshake body the way readInitMessageBody reads it: a
QByteArray server name, a quint8 connection type, a quint32 instance id and
a quint16 checksum; none when the stream status is not Ok. -/
def parseInitMsg (b : List Nat) : Option (List Nat × Nat × Nat × Nat) := do
  let (name, r1) ← readByteArray b
  let (t, r2) ← readU8 r1
  let (id, r3) ← readU32BE r2
  let (ck, _) ← readU16BE r3
  pure (name, t, id, ck)


namespace SingleApplicationPrivate

/-- The function genBlockServerName of singleapplication_p.cpp, Unix
branch: feed the fixed literal SingleApplication, the application name,
organization name and organization domain into Sha256; the application
version unless ExcludeAppVersion; the APPIMAGE environment value when
nonempty, else the application file path, unless ExcludeAppPath; the
resolved username when Mode User is set; then Base64 encode the digest and
replace every forward slash by an underscore. The leading literal is the
UTF-8 bytes of the word SingleApplication. -/
def genBlockServerName (opts : SAOptions) (idy : AppIdentity) : List Nat :=
  let seed := [83, 105, 110, 103, 108, 101, 65, 112, 112, 108, 105, 99, 97, 116, 105, 111, 110] ++
    idy.applicationName ++ idy.organizationName ++ idy.organizationDomain ++
    (if opts.excludeAppVersion then [] else idy.applicationVersion) ++
    (if opts.excludeAppPath then
      [] else (if idy.appimageEnv = [] then idy.applicationFilePath else idy.appimageEnv)) ++
    (if opts.userMode then idy.username else [])
  (base64Encode (sha256 seed)).map (fun c => if c = 47 then 95 else c)

/-- The function blockChecksum: qChecksum over the bytes of the shared
block up to offsetof InstancesInfo checksum. -/
def blockChecksum (st : InstancesInfo) : Nat :=
  qChecksum (blockBytesBeforeChecksum st)

/-- The function initializeMemoryBlock: clear the primary flag, zero the
secondary counter, set the primary pid to minus one, zero the first owner
byte, and store the recomputed checksum. -/
def initializeMemoryBlock (st : InstancesInfo) : InstancesInfo :=
  let st1 := { st with primary := false, secondary := 0, primaryPid := -1,
                       primaryUser := setHead0 st.primaryUser }
  { st1 with checksum := blockChecksum st1 }

/-- The shared block mutation of the function startPrimary: set the primary
flag, record the caller pid, qstrncpy the resolved username into the owner
buffer, and store the recomputed checksum. The QLocalServer setup that
follows in the code has operating system effects outside the block and is
not part of this state. The function also sets the local instance number
to zero, returned here alongside the block. -/
def startPrimary (pid : Int) (username : List Nat) (st : InstancesInfo) :
    InstancesInfo × Nat :=
  let st1 := { st with primary := true, primaryPid := pid,
                       primaryUser := qstrncpyBuf username primaryUserSize }
  ({ st1 with checksum := blockChecksum st1 }, 0)

/-- The function startSecondary: increment the 32 bit secondary counter,
store the recomputed checksum, and record the new counter value as the
local instance number, returned in the second component. -/
def startSecondary (st : InstancesInfo) : InstancesInfo × Nat :=
  let st1 := { st with secondary := (st.secondary + 1) % 4294967296 }
  ({ st1 with checksum := blockChecksum st1 }, st1.secondary)

/-- The shared block mutation of the destructor when this process was the
primary: clear the primary flag, set the primary pid to minus one, zero
the first owner byte, and store the recomputed checksum. -/
def destructorReset (st : InstancesInfo) : InstancesInfo :=
  let st1 := { st with primary := false, primaryPid := -1,
                       primaryUser := setHead0 st.primaryUser }
  { st1 with checksum := blockChecksum st1 }

/-- The initialisation message built by connectToPrimary: a QDataStream
Qt_5_8 serialization of the block server name as a QByteArray, the
connection type as quint8, the instance number as quint32, followed by the
qChecksum of those bytes as quint16. -/
def buildInitMsg (token : List Nat) (connType : Nat) (instanceNumber : Nat) : List Nat :=
  let p := encodeBE 4 token.length ++ token ++ [connType % 256] ++
    encodeBE 4 (instanceNumber % 4294967296)
  p ++ encodeBE 2 (qChecksum p)

/-- The function writeAck writes the single byte newline; the handlers
below count how many of these acknowledgment bytes they write. -/
def ackByteCount : Nat := 1

/-- The function writeConfirmedFrame: write the frame, flush, then wait up
to the timeout for a reply byte; true when a byte arrived in time. The
delay until the acknowledgment byte arrives is an oracle, none when no
byte ever arrives; a wait with an exhausted budget consumes no time. -/
def writeConfirmedFrame (timeout : Nat) (frame : List Nat) (ackDelay : Option Nat) :
    SendStep :=
  match ackDelay with
  | some d => if d ≤ timeout then { frames := [frame], ok := true, elapsed := d }
              else { frames := [frame], ok := false, elapsed := timeout }
  | none => { frames := [frame], ok := false, elapsed := timeout }

/-- The function writeConfirmedMessage: first the eight byte big endian
length header as a confirmed frame, then, only when its acknowledgment
arrived, the message itself as a confirmed frame with the remaining budget,
the elapsed time of the first step deducted. -/
def writeConfirmedMessage (timeout : Nat) (msg : List Nat)
    (d1 d2 : Option Nat) : SendStep :=
  let s1 := writeConfirmedFrame timeout (encodeBE 8 msg.length) d1
  if s1.ok then
    let s2 := writeConfirmedFrame (timeout - s1.elapsed) msg d2
    { frames := s1.frames ++ s2.frames, ok := s2.ok, elapsed := s1.elapsed + s2.elapsed }
  else { frames := s1.frames, ok := false, elapsed := s1.elapsed }

/-- The retry loop of connectToPrimary: sleep a jittered interval of 8 to
17 milliseconds, attempt to connect, wait for the connection bounded by the
remaining budget, stop with success once connected, stop with failure once
the elapsed time reaches the timeout. The oracle supplies each iteration
as a ConnectAttempt; the elapsed clock is explicit. Returns the outcome
and the total elapsed time. -/
def connectLoop (timeout : Nat) (oracle : Nat → ConnectAttempt) (i : Nat)
    (elapsed : Nat) : Bool × Nat :=
  let a := oracle i
  let e1 := elapsed + (8 + a.jitterSeed % 10)
  let w := min a.waitTime (timeout - e1)
  let e2 := e1 + w
  if a.connects then (true, e2)
  else if _h : timeout ≤ e2 then (false, e2)
  else connectLoop timeout oracle (i + 1) e2
termination_by timeout - elapsed
decreasing_by omega

/-- The function connectToPrimary: immediately true when the socket is
already connected; otherwise run the connect loop, and on success send the
initialisation message as a confirmed message with the remaining budget,
the loop elapsed time deducted. Returns the outcome and the total elapsed
time. -/
def connectToPrimary (timeout : Nat) (alreadyConnected : Bool)
    (oracle : Nat → ConnectAttempt) (token : List Nat) (connType : Nat)
    (instanceNumber : Nat) (d1 d2 : Option Nat) : Bool × Nat :=
  if alreadyConnected then (true, 0)
  else
    let r := connectLoop timeout oracle 0 0
    if r.1 then
      let s := writeConfirmedMessage (timeout - r.2)
        (buildInitMsg token connType instanceNumber) d1 d2
      (s.ok, r.2 + s.elapsed)
    else (false, r.2)

/-- The function readMessageHeader: when fewer than eight bytes are
available do nothing; otherwise consume exactly eight bytes, decode them as
the quint64 frame length, store it, advance to the given next stage and
write one acknowledgment byte. Returns the new state and the number of
acknowledgment bytes written. -/
def readMessageHeader (nextStage : ConnectionStage) (c : ConnState) :
    ConnState × Nat :=
  if c.buffer.length < 8 then (c, 0)
  else
    ({ c with stage := nextStage, msgLen := decodeBE (c.buffer.take 8),
              buffer := c.buffer.drop 8 }, ackByteCount)

/-- The function isFrameComplete: at least the stored frame length many
bytes are available. -/
def isFrameComplete (c : ConnState) : Bool :=
  decide (c.msgLen ≤ c.buffer.length)

/-- The function readInitMessageBody: wait until the frame is complete;
then read all available bytes, parse them as the handshake, and validate
that the stream status is Ok, the token equals the own block server name
and the transmitted checksum equals qChecksum over all read bytes but the
last two. On failure close the socket without acknowledgment; on success
record the instance id, advance to StageConnectedHeader, emit
instanceStarted for NewInstance, or for SecondaryInstance when secondary
notification is configured, and write one acknowledgment byte. -/
def readInitMessageBody (cfg : ListenerCfg) (c : ConnState) :
    ConnState × Nat × List Event :=
  if !isFrameComplete c then (c, 0, [])
  else
    let msgBytes := c.buffer
    let actualChecksum := qChecksum (msgBytes.take (msgBytes.length - 2))
    match parseInitMsg msgBytes with
    | none => ({ c with buffer := [], closed := true }, 0, [])
    | some (name, t, id, ck) =>
      if name = cfg.blockServerName ∧ ck = actualChecksum then
        ({ c with buffer := [], instanceId := id,
                  stage := ConnectionStage.StageConnectedHeader },
         ackByteCount,
         if t = NewInstance ∨ (t = SecondaryInstance ∧ cfg.secondaryNotification) then
           [Event.instanceStarted] else [])
      else ({ c with buffer := [], closed := true }, 0, [])

/-- The function slotDataAvailable: wait until the frame is complete; then
read all available bytes as the message, write one acknowledgment byte,
return to StageConnectedHeader and emit receivedMessage with the stored
instance id and the read bytes. -/
def slotDataAvailable (c : ConnState) : ConnState × Nat × List Event :=
  if !isFrameComplete c then (c, 0, [])
  else
    ({ c with buffer := [], stage := ConnectionStage.StageConnectedHeader },
     ackByteCount, [Event.receivedMessage c.instanceId c.buffer])

/-- The readyRead dispatch of slotConnectionEstablished: nothing on a
closed socket, otherwise the handler of the current stage, the init header
paired with StageInitBody and the connected header with
StageConnectedBody. -/
def dispatch (cfg : ListenerCfg) (c : ConnState) : ConnState × Nat × List Event :=
  if c.closed then (c, 0, [])
  else
    match c.stage with
    | ConnectionStage.StageInitHeader =>
        let r := readMessageHeader ConnectionStage.StageInitBody c
        (r.1, r.2, [])
    | ConnectionStage.StageInitBody => readInitMessageBody cfg c
    | ConnectionStage.StageConnectedHeader =>
        let r := readMessageHeader ConnectionStage.StageConnectedBody c
        (r.1, r.2, [])
    | ConnectionStage.StageConnectedBody => slotDataAvailable c

/-- A whole connection lifetime: every arrival of a chunk of bytes appends
it to the buffer and triggers the readyRead dispatch once; acknowledgment
bytes and events are accumulated in order. -/
def runConn (cfg : ListenerCfg) (c : ConnState) :
    List (List Nat) → ConnState × Nat × List Event
  | [] => (c, 0, [])
  | a :: rest =>
    let r1 := dispatch cfg { c with buffer := c.buffer ++ a }
    let r2 := runConn cfg r1.1 rest
    (r2.1, r1.2.1 + r2.2.1, r1.2.2 ++ r2.2.2)

end SingleApplicationPrivate

namespace SingleCoreApplicationPrivate

/-- The function genBlockServerName of singlecoreapplication_p.cpp, which
is the headless variant; the body is the textual duplicate of the variant
above with SingleCoreApplication in place of SingleApplication. -/
def genBlockServerName (opts : SAOptions) (idy : AppIdentity) : List Nat :=
  let seed := [83, 105, 110, 103, 108, 101, 65, 112, 112, 108, 105, 99, 97, 116, 105, 111, 110] ++
    idy.applicationName ++ idy.organizationName ++ idy.organizationDomain ++
    (if opts.excludeAppVersion then [] else idy.applicationVersion) ++
    (if opts.excludeAppPath then
      [] else (if idy.appimageEnv = [] then idy.applicationFilePath else idy.appimageEnv)) ++
    (if opts.userMode then idy.username else [])
  (base64Encode (sha256 seed)).map (fun c => if c = 47 then 95 else c)

/-- The function blockChecksum of the headless variant. -/
def blockChecksum (st : InstancesInfo) : Nat :=
  qChecksum (blockBytesBeforeChecksum st)

/-- The function initializeMemoryBlock of the headless variant. -/
def initializeMemoryBlock (st : InstancesInfo) : InstancesInfo :=
  let st1 := { st with primary := false, secondary := 0, primaryPid := -1,
                       primaryUser := setHead0 st.primaryUser }
  { st1 with checksum := blockChecksum st1 }

/-- The shared block mutation of the function startPrimary of the headless
variant. -/
def startPrimary (pid : Int) (username : List Nat) (st : InstancesInfo) :
    InstancesInfo × Nat :=
  let st1 := { st with primary := true, primaryPid := pid,
                       primaryUser := qstrncpyBuf username primaryUserSize }
  ({ st1 with checksum := blockChecksum st1 }, 0)

/-- The function startSecondary of the headless variant. -/
def startSecondary (st : InstancesInfo) : InstancesInfo × Nat :=
  let st1 := { st with secondary := (st.secondary + 1) % 4294967296 }
  ({ st1 with checksum := blockChecksum st1 }, st1.secondary)

/-- The initialisation message built by connectToPrimary of the headless
variant. -/
def buildInitMsg (token : List Nat) (connType : Nat) (instanceNumber : Nat) : List Nat :=
  let p := encodeBE 4 token.length ++ token ++ [connType % 256] ++
    encodeBE 4 (instanceNumber % 4294967296)
  p ++ encodeBE 2 (qChecksum p)

/-- The function writeConfirmedFrame of the headless variant. -/
def writeConfirmedFrame (timeout : Nat) (frame : List Nat) (ackDelay : Option Nat) :
    SendStep :=
  match ackDelay with
  | some d => if d ≤ timeout then { frames := [frame], ok := true, elapsed := d }
              else { frames := [frame], ok := false, elapsed := timeout }
  | none => { frames := [frame], ok := false, elapsed := timeout }

/-- The function writeConfirmedMessage of the headless variant. -/
def writeConfirmedMessage (timeout : Nat) (msg : List Nat)
    (d1 d2 : Option Nat) : SendStep :=
  let s1 := writeConfirmedFrame timeout (encodeBE 8 msg.length) d1
  if s1.ok then
    let s2 := writeConfirmedFrame (timeout - s1.elapsed) msg d2
    { frames := s1.frames ++ s2.frames, ok := s2.ok, elapsed := s1.elapsed + s2.elapsed }
  else { frames := s1.frames, ok := false, elapsed := s1.elapsed }

/-- The retry loop of connectToPrimary of the headless variant. -/
def connectLoop (timeout : Nat) (oracle : Nat → ConnectAttempt) (i : Nat)
    (elapsed : Nat) : Bool × Nat :=
  let a := oracle i
  let e1 := elapsed + (8 + a.jitterSeed % 10)
  let w := min a.waitTime (timeout - e1)
  let e2 := e1 + w
  if a.connects then (true, e2)
  else if _h : timeout ≤ e2 then (false, e2)
  else connectLoop timeout oracle (i + 1) e2
termination_by timeout - elapsed
decreasing_by omega

/-- The function connectToPrimary of the headless variant. -/
def connectToPrimary (timeout : Nat) (alreadyConnected : Bool)
    (oracle : Nat → ConnectAttempt) (token : List Nat) (connType : Nat)
    (instanceNumber : Nat) (d1 d2 : Option Nat) : Bool × Nat :=
  if alreadyConnected then (true, 0)
  else
    let r := connectLoop timeout oracle 0 0
    if r.1 then
      let s := writeConfirmedMessage (timeout - r.2)
        (buildInitMsg token connType instanceNumber) d1 d2
      (s.ok, r.2 + s.elapsed)
    else (false, r.2)

/-- The function writeAck of the headless variant writes the single byte
newline; its handlers count these acknowledgment bytes. -/
def ackByteCount : Nat := 1

/-- The function readMessageHeader of the headless variant. -/
def readMessageHeader (nextStage : ConnectionStage) (c : ConnState) :
    ConnState × Nat :=
  if c.buffer.length < 8 then (c, 0)
  else
    ({ c with stage := nextStage, msgLen := decodeBE (c.buffer.take 8),
              buffer := c.buffer.drop 8 }, ackByteCount)

/-- The function isFrameComplete of the headless variant, whose only
textual difference from the variant above is a missing const qualifier on
the local ConnectionInfo reference. -/
def isFrameComplete (c : ConnState) : Bool :=
  decide (c.msgLen ≤ c.buffer.length)

/-- The function readInitMessageBody of the headless variant. -/
def readInitMessageBody (cfg : ListenerCfg) (c : ConnState) :
    ConnState × Nat × List Event :=
  if !isFrameComplete c then (c, 0, [])
  else
    let msgBytes := c.buffer
    let actualChecksum := qChecksum (msgBytes.take (msgBytes.length - 2))
    match parseInitMsg msgBytes with
    | none => ({ c with buffer := [], closed := true }, 0, [])
    | some (name, t, id, ck) =>
      if name = cfg.blockServerName ∧ ck = actualChecksum then
        ({ c with buffer := [], instanceId := id,
                  stage := ConnectionStage.StageConnectedHeader },
         ackByteCount,
         if t = NewInstance ∨ (t = SecondaryInstance ∧ cfg.secondaryNotification) then
           [Event.instanceStarted] else [])
      else ({ c with buffer := [], closed := true }, 0, [])

/-- The function slotDataAvailable of the headless variant. -/
def slotDataAvailable (c : ConnState) : ConnState × Nat × List Event :=
  if !isFrameComplete c then (c, 0, [])
  else
    ({ c with buffer := [], stage := ConnectionStage.StageConnectedHeader },
     ackByteCount, [Event.receivedMessage c.instanceId c.buffer])

/-- The readyRead dispatch of slotConnectionEstablished of the headless
variant. -/
def dispatch (cfg : ListenerCfg) (c : ConnState) : ConnState × Nat × List Event :=
  if c.closed then (c, 0, [])
  else
    match c.stage with
    | ConnectionStage.StageInitHeader =>
        let r := readMessageHeader ConnectionStage.StageInitBody c
        (r.1, r.2, [])
    | ConnectionStage.StageInitBody => readInitMessageBody cfg c
    | ConnectionStage.StageConnectedHeader =>
        let r := readMessageHeader ConnectionStage.StageConnectedBody c
        (r.1, r.2, [])
    | ConnectionStage.StageConnectedBody => slotDataAvailable c

end SingleCoreApplicationPrivate

/-! Derived states and runs used by the claims. -/

/-- The shared block state after n further startSecondary calls. -/
def secondaryAfter (st : InstancesInfo) : Nat → InstancesInfo
  | 0 => st
  | n + 1 => (SingleApplicationPrivate.startSecondary (secondaryAfter st n)).1

/-- The instance ordinal returned by the k-th startSecondary call made on
the block, with calls counted from one. -/
def nthOrdinal (st : InstancesInfo) (k : Nat) : Nat :=
  (SingleApplicationPrivate.startSecondary (secondaryAfter st (k - 1))).2

/-- A zeroed shared memory block as handed out by the operating system on
first attachment. -/
def zeroBlock : InstancesInfo :=
  { primary := false, secondary := 0, primaryPid := 0,
    primaryUser := List.replicate primaryUserSize 0, checksum := 0 }

/-- A freshly initialized block, the starting point of the ordinal claims. -/
def freshBlock : InstancesInfo :=
  SingleApplicationPrivate.initializeMemoryBlock zeroBlock

/-! Shared lemmas. -/

/-- A w byte big endian encoding has length w. -/
theorem length_encodeBE (w : Nat) : ∀ n, (encodeBE w n).length = w := by
  induction w with
  | zero => intro n; rfl
  | succ w ih => intro n; simp [encodeBE, ih]

/-- Big endian decoding of a list extended by one byte. -/
theorem decodeBE_append (xs : List Nat) (b : Nat) :
    decodeBE (xs ++ [b]) = decodeBE xs * 256 + b := by
  simp [decodeBE, List.foldl_append]

/-- Big endian decoding inverts big endian encoding below the width bound. -/
theorem decodeBE_encodeBE (w : Nat) : ∀ n, n < 256 ^ w → decodeBE (encodeBE w n) = n := by
  induction w with
  | zero => intro n h; interval_cases n; rfl
  | succ w ih =>
    intro n h
    have hdiv : n / 256 < 256 ^ w :=
      Nat.div_lt_of_lt_mul (by rw [Nat.mul_comm 256 (256 ^ w), ← Nat.pow_succ]; exact h)
    rw [encodeBE, decodeBE_append, ih (n / 256) hdiv]
    omega

/-- Replacing every slash by an underscore leaves no slash behind. -/
theorem slashFree_map (s : List Nat) : 47 ∉ s.map (fun c => if c = 47 then 95 else c) := by
  intro hmem
  obtain ⟨a, _, ha⟩ := List.mem_map.1 hmem
  by_cases h47 : a = 47 <;> simp [h47] at ha

/-- The secondary counter after n registrations on a fresh block. -/
theorem secondaryAfter_fresh (n : Nat) :
    (secondaryAfter freshBlock n).secondary = n % 4294967296 := by
  induction n with
  | zero => rfl
  | succ n ih =>
    show ((secondaryAfter freshBlock n).secondary + 1) % 4294967296 = (n + 1) % 4294967296
    rw [ih]
    omega

/-- The ordinal handed out by the k-th registration on a fresh block. -/
theorem nthOrdinal_fresh (k : Nat) (h : 1 ≤ k) :
    nthOrdinal freshBlock k = k % 4294967296 := by
  show ((secondaryAfter freshBlock (k - 1)).secondary + 1) % 4294967296 = k % 4294967296
  rw [secondaryAfter_fresh]
  omega

/-- The dispatch of a closed connection does nothing. -/
theorem dispatch_closed (cfg : ListenerCfg) (c : ConnState) (h : c.closed = true) :
    SingleApplicationPrivate.dispatch cfg c = (c, 0, []) := by
  simp [SingleApplicationPrivate.dispatch, h]

/-- A closed connection never produces further acknowledgments or events. -/
theorem runConn_closed (cfg : ListenerCfg) :
    ∀ (arr : List (List Nat)) (c : ConnState), c.closed = true →
      (SingleApplicationPrivate.runConn cfg c arr).2.1 = 0 ∧
      (SingleApplicationPrivate.runConn cfg c arr).2.2 = [] ∧
      (SingleApplicationPrivate.runConn cfg c arr).1.closed = true := by
  intro arr
  induction arr with
  | nil => intro c h; exact ⟨rfl, rfl, h⟩
  | cons a rest ih =>
    intro c h
    have hstep := dispatch_closed cfg { c with buffer := c.buffer ++ a } h
    simp [SingleApplicationPrivate.runConn, hstep]
    exact ih _ h

/-- Header dispatch in the init header stage: nothing below eight buffered
bytes, otherwise exactly eight bytes consumed, the decoded length stored,
the paired init body stage entered and one acknowledgment byte written. -/
theorem dispatch_initHeader (cfg : ListenerCfg) (c : ConnState)
    (hcl : c.closed = false) (hst : c.stage = ConnectionStage.StageInitHeader) :
    (c.buffer.length < 8 → SingleApplicationPrivate.dispatch cfg c = (c, 0, [])) ∧
    (8 ≤ c.buffer.length → SingleApplicationPrivate.dispatch cfg c =
      ({ c with stage := ConnectionStage.StageInitBody,
                msgLen := decodeBE (c.buffer.take 8),
                buffer := c.buffer.drop 8 }, 1, [])) := by
  obtain ⟨stg, ml, iid, buf, cl⟩ := c
  simp only at hcl hst
  subst hcl hst
  constructor
  · intro hlen
    simp [SingleApplicationPrivate.dispatch, SingleApplicationPrivate.readMessageHeader, hlen]
  · intro hlen
    simp [SingleApplicationPrivate.dispatch, SingleApplicationPrivate.readMessageHeader,
      Nat.not_lt.2 hlen, SingleApplicationPrivate.ackByteCount]

/-- Header dispatch in the connected header stage, paired with the
connected body stage. -/
theorem dispatch_connHeader (cfg : ListenerCfg) (c : ConnState)
    (hcl : c.closed = false) (hst : c.stage = ConnectionStage.StageConnectedHeader) :
    (c.buffer.length < 8 → SingleApplicationPrivate.dispatch cfg c = (c, 0, [])) ∧
    (8 ≤ c.buffer.length → SingleApplicationPrivate.dispatch cfg c =
      ({ c with stage := ConnectionStage.StageConnectedBody,
                msgLen := decodeBE (c.buffer.take 8),
                buffer := c.buffer.drop 8 }, 1, [])) := by
  obtain ⟨stg, ml, iid, buf, cl⟩ := c
  simp only at hcl hst
  subst hcl hst
  constructor
  · intro hlen
    simp [SingleApplicationPrivate.dispatch, SingleApplicationPrivate.readMessageHeader, hlen]
  · intro hlen
    simp [SingleApplicationPrivate.dispatch, SingleApplicationPrivate.readMessageHeader,
      Nat.not_lt.2 hlen, SingleApplicationPrivate.ackByteCount]

/-- Connected body dispatch with a complete frame: the whole buffer is
consumed and delivered, one acknowledgment byte is written, and the stage
returns to the connected header. -/
theorem dispatch_connBody (cfg : ListenerCfg) (c : ConnState)
    (hcl : c.closed = false) (hst : c.stage = ConnectionStage.StageConnectedBody)
    (hlen : c.msgLen ≤ c.buffer.length) :
    SingleApplicationPrivate.dispatch cfg c =
      ({ c with buffer := [], stage := ConnectionStage.StageConnectedHeader }, 1,
       [Event.receivedMessage c.instanceId c.buffer]) := by
  obtain ⟨stg, ml, iid, buf, cl⟩ := c
  simp only at hcl hst hlen
  subst hcl hst
  simp [SingleApplicationPrivate.dispatch, SingleApplicationPrivate.slotDataAvailable,
    SingleApplicationPrivate.isFrameComplete, hlen, SingleApplicationPrivate.ackByteCount]

/-- Init body dispatch with a complete frame whose parsed token or checksum
does not match: the socket is closed with the buffer drained, no
acknowledgment byte is written and no event is emitted. -/
theorem dispatch_initBody_invalid (cfg : ListenerCfg) (c : ConnState)
    (name : List Nat) (t id ck : Nat)
    (hcl : c.closed = false) (hst : c.stage = ConnectionStage.StageInitBody)
    (hlen : c.msgLen ≤ c.buffer.length)
    (hparse : parseInitMsg c.buffer = some (name, t, id, ck))
    (hbad : name ≠ cfg.blockServerName ∨ ck ≠ qChecksum (c.buffer.take (c.buffer.length - 2))) :
    SingleApplicationPrivate.dispatch cfg c =
      ({ c with buffer := [], closed := true }, 0, []) := by
  obtain ⟨stg, ml, iid, buf, cl⟩ := c
  simp only at hcl hst hlen hparse hbad
  subst hcl hst
  have hnot : ¬ (name = cfg.blockServerName ∧ ck = qChecksum (buf.take (buf.length - 2))) := by
    tauto
  simp [SingleApplicationPrivate.dispatch, SingleApplicationPrivate.readInitMessageBody,
    SingleApplicationPrivate.isFrameComplete, hlen, hparse, hnot]

/-- Init body dispatch with a complete frame always drains the buffer. -/
theorem dispatch_initBody_empty (cfg : ListenerCfg) (c : ConnState)
    (hcl : c.closed = false) (hst : c.stage = ConnectionStage.StageInitBody)
    (hlen : c.msgLen ≤ c.buffer.length) :
    (SingleApplicationPrivate.dispatch cfg c).1.buffer = [] := by
  obtain ⟨stg, ml, iid, buf, cl⟩ := c
  simp only at hcl hst hlen
  subst hcl hst
  simp only [SingleApplicationPrivate.dispatch, SingleApplicationPrivate.readInitMessageBody,
    SingleApplicationPrivate.isFrameComplete, decide_eq_true_eq]
  rcases hp : parseInitMsg buf with _ | ⟨name, t, id, ck⟩
  · simp [hlen, hp]
  · simp [hlen, hp]
    split <;> simp

/-- Against an oracle that never connects, the connect loop fails and its
total elapsed time exceeds neither the entry clock nor the timeout by more
than one maximal jitter interval of 17 milliseconds. -/
theorem connectLoop_fail (T : Nat) (oracle : Nat → ConnectAttempt)
    (hc : ∀ i, (oracle i).connects = false) :
    ∀ d i elapsed, T - elapsed ≤ d →
      (SingleApplicationPrivate.connectLoop T oracle i elapsed).1 = false ∧
      (SingleApplicationPrivate.connectLoop T oracle i elapsed).2 ≤ max elapsed T + 17 := by
  intro d
  induction d with
  | zero =>
    intro i elapsed hd
    rw [SingleApplicationPrivate.connectLoop]
    simp only [hc i, Bool.false_eq_true, if_false]
    split
    · constructor
      · rfl
      · omega
    · next h => exact absurd (by omega) h
  | succ d ih =>
    intro i elapsed hd
    rw [SingleApplicationPrivate.connectLoop]
    simp only [hc i, Bool.false_eq_true, if_false]
    split
    · constructor
      · rfl
      · omega
    · next h =>
      have hrec := ih (i + 1)
        (elapsed + (8 + (oracle i).jitterSeed % 10) +
          min (oracle i).waitTime (T - (elapsed + (8 + (oracle i).jitterSeed % 10))))
        (by omega)
      exact ⟨hrec.1, by omega⟩

/-! Claim theorems. -/

/-- C5: after every mutation of the shared election block, namely
initialization, startPrimary, startSecondary and the primary shutdown
reset, the stored 16 bit checksum field equals the checksum computed over
all bytes of the block preceding the checksum field. -/
theorem C5_checksum_invariant :
    ∀ (st : InstancesInfo) (pid : Int) (user : List Nat),
      (SingleApplicationPrivate.initializeMemoryBlock st).checksum =
        SingleApplicationPrivate.blockChecksum
          (SingleApplicationPrivate.initializeMemoryBlock st) ∧
      (SingleApplicationPrivate.startPrimary pid user st).1.checksum =
        SingleApplicationPrivate.blockChecksum
          (SingleApplicationPrivate.startPrimary pid user st).1 ∧
      (SingleApplicationPrivate.startSecondary st).1.checksum =
        SingleApplicationPrivate.blockChecksum
          (SingleApplicationPrivate.startSecondary st).1 ∧
      (SingleApplicationPrivate.destructorReset st).checksum =
        SingleApplicationPrivate.blockChecksum
          (SingleApplicationPrivate.destructorReset st) := by
  intro st pid user
  exact ⟨rfl, rfl, rfl, rfl⟩

/-- C10: startPrimary rewrites exactly the primary flag, the primary
process id, the primary owner buffer and the checksum field, leaving the
secondary counter unchanged; the primary shutdown reset leaves it unchanged
as well, and only the fresh initialization of the block sets it to zero. -/
theorem C10_startPrimary_frame :
    ∀ (st : InstancesInfo) (pid : Int) (user : List Nat),
      (SingleApplicationPrivate.startPrimary pid user st).1 =
        { primary := true, secondary := st.secondary, primaryPid := pid,
          primaryUser := qstrncpyBuf user primaryUserSize,
          checksum := SingleApplicationPrivate.blockChecksum
            { st with primary := true, primaryPid := pid,
                      primaryUser := qstrncpyBuf user primaryUserSize } } ∧
      (SingleApplicationPrivate.startPrimary pid user st).1.secondary = st.secondary ∧
      (SingleApplicationPrivate.destructorReset st).secondary = st.secondary ∧
      (SingleApplicationPrivate.initializeMemoryBlock st).secondary = 0 := by
  intro st pid user
  exact ⟨rfl, rfl, rfl, rfl⟩

/-- C6: genBlockServerName is deterministic, two runs on identical identity
facts and option flags derive the identical token, and the token never
contains a forward slash byte, since the Base64 digest has every slash
replaced by an underscore. -/
theorem C6_token_deterministic_slashfree :
    ∀ (o1 o2 : SAOptions) (i1 i2 : AppIdentity), o1 = o2 → i1 = i2 →
      SingleApplicationPrivate.genBlockServerName o1 i1 =
        SingleApplicationPrivate.genBlockServerName o2 i2 ∧
      47 ∉ SingleApplicationPrivate.genBlockServerName o1 i1 := by
  intro o1 o2 i1 i2 ho hi
  subst ho hi
  exact ⟨rfl, slashFree_map _⟩

/-- C6 witness at a concrete identity. -/
theorem C6_witness :
    SingleApplicationPrivate.genBlockServerName
        { excludeAppVersion := false, excludeAppPath := false,
          userMode := true, secondaryNotification := false }
        { applicationName := [115, 112], organizationName := [111],
          organizationDomain := [100], applicationVersion := [49],
          applicationFilePath := [47, 97], appimageEnv := [],
          username := [117] } =
      SingleApplicationPrivate.genBlockServerName
        { excludeAppVersion := false, excludeAppPath := false,
          userMode := true, secondaryNotification := false }
        { applicationName := [115, 112], organizationName := [111],
          organizationDomain := [100], applicationVersion := [49],
          applicationFilePath := [47, 97], appimageEnv := [],
          username := [117] } ∧
    47 ∉ SingleApplicationPrivate.genBlockServerName
        { excludeAppVersion := false, excludeAppPath := false,
          userMode := true, secondaryNotification := false }
        { applicationName := [115, 112], organizationName := [111],
          organizationDomain := [100], applicationVersion := [49],
          applicationFilePath := [47, 97], appimageEnv := [],
          username := [117] } :=
  C6_token_deterministic_slashfree _ _ _ _ rfl rfl

/-- C1 as stated fails at the 32 bit boundary: on a fresh block the call
number 4294967296 returns ordinal 0, smaller than the ordinal 1 of the
first call, so the ordinals of the first 4294967296 calls are neither
strictly increasing nor equal to 1..N. -/
theorem C1_counterexample :
    nthOrdinal freshBlock 4294967296 = 0 ∧
    nthOrdinal freshBlock 1 = 1 ∧
    nthOrdinal freshBlock 4294967296 < nthOrdinal freshBlock 1 := by
  have h1 := nthOrdinal_fresh 4294967296 (by omega)
  have h2 := nthOrdinal_fresh 1 (by omega)
  refine ⟨by omega, by omega, by omega⟩

/-- C1 amended: startSecondary increments the secondary counter by one
modulo 2 to the 32 and returns the new value as the ordinal; below the
wrap, the increment is by exactly one, and on a freshly initialized block
the first N calls with N below 2 to the 32 return the strictly increasing,
pairwise distinct ordinals 1..N. -/
theorem C1_secondary_ordinals :
    (∀ st : InstancesInfo, st.secondary + 1 < 4294967296 →
      (SingleApplicationPrivate.startSecondary st).1.secondary = st.secondary + 1 ∧
      (SingleApplicationPrivate.startSecondary st).2 = st.secondary + 1) ∧
    (∀ N, N < 4294967296 → ∀ k, 1 ≤ k → k ≤ N → nthOrdinal freshBlock k = k) ∧
    (∀ N, N < 4294967296 → ∀ j k, 1 ≤ j → j < k → k ≤ N →
      nthOrdinal freshBlock j < nthOrdinal freshBlock k) := by
  refine ⟨?_, ?_, ?_⟩
  · intro st h
    have : (st.secondary + 1) % 4294967296 = st.secondary + 1 := Nat.mod_eq_of_lt h
    exact ⟨this, this⟩
  · intro N hN k hk1 hkN
    rw [nthOrdinal_fresh k hk1]
    omega
  · intro N hN j k hj hjk hkN
    rw [nthOrdinal_fresh j hj, nthOrdinal_fresh k (by omega)]
    omega

/-- C1 witness: the third call on a fresh block returns ordinal three, the
first two ordinals increase, and one startSecondary call on the fresh block
returns ordinal one. -/
theorem C1_witness :
    nthOrdinal freshBlock 3 = 3 ∧
    nthOrdinal freshBlock 1 < nthOrdinal freshBlock 2 ∧
    (SingleApplicationPrivate.startSecondary freshBlock).2 = freshBlock.secondary + 1 :=
  ⟨C1_secondary_ordinals.2.1 3 (by decide) 3 (by decide) (by decide),
   C1_secondary_ordinals.2.2 2 (by decide) 1 2 (by decide) (by decide) (by decide),
   (C1_secondary_ordinals.1 freshBlock (by decide)).2⟩

/-- C7: in a header state, with fewer than eight buffered bytes the
listener consumes nothing and leaves stage and stored frame length
unchanged; with at least eight buffered bytes it consumes exactly eight,
stores their decoded value as the expected frame length, advances to the
paired body state and writes exactly one acknowledgment byte. -/
theorem C7_header_stage :
    ∀ (cfg : ListenerCfg) (c : ConnState), c.closed = false →
      (c.stage = ConnectionStage.StageInitHeader ∨
       c.stage = ConnectionStage.StageConnectedHeader) →
      (c.buffer.length < 8 → SingleApplicationPrivate.dispatch cfg c = (c, 0, [])) ∧
      (8 ≤ c.buffer.length → SingleApplicationPrivate.dispatch cfg c =
        ({ c with
             stage := (if c.stage = ConnectionStage.StageInitHeader then
               ConnectionStage.StageInitBody else ConnectionStage.StageConnectedBody),
             msgLen := decodeBE (c.buffer.take 8),
             buffer := c.buffer.drop 8 }, 1, [])) := by
  intro cfg c hcl hst
  rcases hst with hst | hst
  · have h := dispatch_initHeader cfg c hcl hst
    refine ⟨h.1, fun hlen => ?_⟩
    rw [h.2 hlen, if_pos hst]
  · have h := dispatch_connHeader cfg c hcl hst
    refine ⟨h.1, fun hlen => ?_⟩
    rw [h.2 hlen, if_neg (by rw [hst]; intro hcontra; cases hcontra)]

/-- C7 witness: a connection in the init header state with nine buffered
bytes consumes exactly the eight header bytes, stores the decoded length
nine, moves to the init body state and acknowledges once; with only one
buffered byte nothing happens. -/
theorem C7_witness :
    (SingleApplicationPrivate.dispatch
        { blockServerName := [65], secondaryNotification := false }
        { stage := ConnectionStage.StageInitHeader, msgLen := 0, instanceId := 0,
          buffer := [0, 0, 0, 0, 0, 0, 0, 9, 5], closed := false } =
      ({ stage := ConnectionStage.StageInitBody, msgLen := 9, instanceId := 0,
         buffer := [5], closed := false }, 1, [])) ∧
    (SingleApplicationPrivate.dispatch
        { blockServerName := [65], secondaryNotification := false }
        { stage := ConnectionStage.StageConnectedHeader, msgLen := 0, instanceId := 0,
          buffer := [7], closed := false } =
      ({ stage := ConnectionStage.StageConnectedHeader, msgLen := 0, instanceId := 0,
         buffer := [7], closed := false }, 0, [])) :=
  ⟨(C7_header_stage _ _ rfl (Or.inl rfl)).2 (by decide),
   (C7_header_stage _ _ rfl (Or.inr rfl)).1 (by decide)⟩

/-- C4 as stated fails: with stored frame length 2 and three buffered
bytes, the connected body stage consumes all three bytes into the delivered
payload and leaves nothing buffered, instead of consuming exactly two bytes
and leaving the third buffered. -/
theorem C4_counterexample :
    (SingleApplicationPrivate.dispatch
        { blockServerName := [65], secondaryNotification := false }
        { stage := ConnectionStage.StageConnectedBody, msgLen := 2, instanceId := 7,
          buffer := [1, 2, 3], closed := false }).2.2 =
      [Event.receivedMessage 7 [1, 2, 3]] ∧
    (SingleApplicationPrivate.dispatch
        { blockServerName := [65], secondaryNotification := false }
        { stage := ConnectionStage.StageConnectedBody, msgLen := 2, instanceId := 7,
          buffer := [1, 2, 3], closed := false }).1.buffer = [] ∧
    ¬ ((SingleApplicationPrivate.dispatch
        { blockServerName := [65], secondaryNotification := false }
        { stage := ConnectionStage.StageConnectedBody, msgLen := 2, instanceId := 7,
          buffer := [1, 2, 3], closed := false }).2.2 =
      [Event.receivedMessage 7 [1, 2]]) ∧
    ¬ ((SingleApplicationPrivate.dispatch
        { blockServerName := [65], secondaryNotification := false }
        { stage := ConnectionStage.StageConnectedBody, msgLen := 2, instanceId := 7,
          buffer := [1, 2, 3], closed := false }).1.buffer = [3]) := by
  decide

/-- C4 amended: in a body state whose buffered byte count is at least the
stored frame length, the listener consumes the entire buffer, of which the
frame is a prefix, as that frame, leaving no bytes buffered on the
connection; in the connected body state the whole buffer is the delivered
payload. -/
theorem C4_body_consumes_all :
    ∀ (cfg : ListenerCfg) (c : ConnState), c.closed = false →
      c.msgLen ≤ c.buffer.length →
      (c.stage = ConnectionStage.StageConnectedBody →
        SingleApplicationPrivate.dispatch cfg c =
          ({ c with buffer := [], stage := ConnectionStage.StageConnectedHeader }, 1,
           [Event.receivedMessage c.instanceId c.buffer])) ∧
      (c.stage = ConnectionStage.StageInitBody →
        (SingleApplicationPrivate.dispatch cfg c).1.buffer = []) := by
  intro cfg c hcl hlen
  exact ⟨fun hst => dispatch_connBody cfg c hcl hst hlen,
         fun hst => dispatch_initBody_empty cfg c hcl hst hlen⟩

/-- C4 witness: a connected body frame of stored length one with exactly
one buffered byte is delivered whole. -/
theorem C4_witness :
    SingleApplicationPrivate.dispatch
        { blockServerName := [65], secondaryNotification := false }
        { stage := ConnectionStage.StageConnectedBody, msgLen := 1, instanceId := 4,
          buffer := [9], closed := false } =
      ({ stage := ConnectionStage.StageConnectedHeader, msgLen := 1, instanceId := 4,
         buffer := [], closed := false }, 1, [Event.receivedMessage 4 [9]]) :=
  (C4_body_consumes_all _ _ rfl (by decide)).1 rfl

/-- C2 as stated fails: a connection whose handshake body carries the token
B against a listener whose token is A receives one acknowledgment byte over
its lifetime, namely the acknowledgment of the eight byte header frame,
which the listener writes before it can see the body; it is closed and no
event is emitted, but the acknowledgment count is not zero. -/
theorem C2_counterexample :
    (SingleApplicationPrivate.runConn
        { blockServerName := [65], secondaryNotification := false } freshConn
        [[0, 0, 0, 0, 0, 0, 0, 12], [0, 0, 0, 1, 66, 1, 0, 0, 0, 0, 253, 110]]).2.1 = 1 ∧
    ¬ ((SingleApplicationPrivate.runConn
        { blockServerName := [65], secondaryNotification := false } freshConn
        [[0, 0, 0, 0, 0, 0, 0, 12], [0, 0, 0, 1, 66, 1, 0, 0, 0, 0, 253, 110]]).2.1 = 0) ∧
    (SingleApplicationPrivate.runConn
        { blockServerName := [65], secondaryNotification := false } freshConn
        [[0, 0, 0, 0, 0, 0, 0, 12], [0, 0, 0, 1, 66, 1, 0, 0, 0, 0, 253, 110]]).2.2 = [] ∧
    (SingleApplicationPrivate.runConn
        { blockServerName := [65], secondaryNotification := false } freshConn
        [[0, 0, 0, 0, 0, 0, 0, 12], [0, 0, 0, 1, 66, 1, 0, 0, 0, 0, 253, 110]]).1.closed = true ∧
    parseInitMsg [0, 0, 0, 1, 66, 1, 0, 0, 0, 0, 253, 110] = some ([66], 1, 0, 64878) ∧
    ¬ ([66] = [65]) := by
  decide

/-- C2 amended: a connection whose handshake body presents a mismatched
token or a corrupted handshake checksum receives no acknowledgment byte in
response to the body, is closed, and never triggers any event over its
whole lifetime; the single acknowledgment byte it does receive is the one
the listener writes for the eight byte header frame before validating the
body, so the lifetime acknowledgment count is one rather than zero. -/
theorem C2_handshake_rejection :
    ∀ (cfg : ListenerCfg) (hdr body : List Nat) (more : List (List Nat))
      (name : List Nat) (t id ck : Nat),
      hdr.length = 8 →
      decodeBE hdr ≤ body.length →
      parseInitMsg body = some (name, t, id, ck) →
      (name ≠ cfg.blockServerName ∨ ck ≠ qChecksum (body.take (body.length - 2))) →
      (SingleApplicationPrivate.runConn cfg freshConn ([hdr, body] ++ more)).2.1 = 1 ∧
      (SingleApplicationPrivate.runConn cfg freshConn ([hdr, body] ++ more)).2.2 = [] ∧
      (SingleApplicationPrivate.runConn cfg freshConn ([hdr, body] ++ more)).1.closed = true := by
  intro cfg hdr body more name t id ck h8 hlen hparse hbad
  have htake : hdr.take 8 = hdr := List.take_of_length_le (by omega)
  have hdrop : hdr.drop 8 = [] := List.drop_eq_nil_of_le (by omega)
  have h1 := (dispatch_initHeader cfg
      { stage := ConnectionStage.StageInitHeader, msgLen := 0, instanceId := 0,
        buffer := hdr, closed := false } rfl rfl).2 (by simp; omega)
  simp only [htake, hdrop] at h1
  have h2 := dispatch_initBody_invalid cfg
      { stage := ConnectionStage.StageInitBody, msgLen := decodeBE hdr, instanceId := 0,
        buffer := body, closed := false } name t id ck rfl rfl hlen hparse hbad
  have h3 := runConn_closed cfg more
      { stage := ConnectionStage.StageInitBody, msgLen := decodeBE hdr, instanceId := 0,
        buffer := [], closed := true } rfl
  simp only [List.cons_append, List.nil_append, SingleApplicationPrivate.runConn,
    freshConn, h1, h2]
  simp [h3.1, h3.2.1, h3.2.2]

/-- C2 witness: the concrete mismatched token run, extended by one further
arrival that the closed connection ignores. -/
theorem C2_witness :
    (SingleApplicationPrivate.runConn
        { blockServerName := [65], secondaryNotification := false } freshConn
        ([[0, 0, 0, 0, 0, 0, 0, 12], [0, 0, 0, 1, 66, 1, 0, 0, 0, 0, 253, 110]] ++
          [[1, 2, 3]])).2.1 = 1 ∧
    (SingleApplicationPrivate.runConn
        { blockServerName := [65], secondaryNotification := false } freshConn
        ([[0, 0, 0, 0, 0, 0, 0, 12], [0, 0, 0, 1, 66, 1, 0, 0, 0, 0, 253, 110]] ++
          [[1, 2, 3]])).2.2 = [] ∧
    (SingleApplicationPrivate.runConn
        { blockServerName := [65], secondaryNotification := false } freshConn
        ([[0, 0, 0, 0, 0, 0, 0, 12], [0, 0, 0, 1, 66, 1, 0, 0, 0, 0, 253, 110]] ++
          [[1, 2, 3]])).1.closed = true :=
  C2_handshake_rejection
    { blockServerName := [65], secondaryNotification := false }
    [0, 0, 0, 0, 0, 0, 0, 12] [0, 0, 0, 1, 66, 1, 0, 0, 0, 0, 253, 110]
    [[1, 2, 3]] [66] 1 0 64878 (by decide) (by decide) (by decide)
    (Or.inl (by decide))

/-- C8: a steady state message frame of any payload below the 64 bit
length bound, delivered as its eight byte length prefix frame followed by
the payload frame, is consumed by the header and body stages and emitted
byte for byte identical in the message received event, with one
acknowledgment per frame; and the sender result of writeConfirmedMessage
is true exactly when one acknowledgment byte arrived after each of the two
frames within the remaining budget, in which case both frames were
written. -/
theorem C8_frame_roundtrip :
    ∀ (cfg : ListenerCfg) (c : ConnState) (msg : List Nat) (T : Nat)
      (d1 d2 : Option Nat),
      c.closed = false → c.stage = ConnectionStage.StageConnectedHeader →
      c.buffer = [] → msg.length < 2 ^ 64 →
      (SingleApplicationPrivate.runConn cfg c [encodeBE 8 msg.length, msg] =
        ({ stage := ConnectionStage.StageConnectedHeader, msgLen := msg.length,
           instanceId := c.instanceId, buffer := [], closed := false }, 2,
         [Event.receivedMessage c.instanceId msg])) ∧
      ((SingleApplicationPrivate.writeConfirmedMessage T msg d1 d2).ok = true ↔
        (∃ x, d1 = some x ∧ x ≤ T ∧ ∃ y, d2 = some y ∧ y ≤ T - x)) ∧
      ((SingleApplicationPrivate.writeConfirmedMessage T msg d1 d2).ok = true →
        (SingleApplicationPrivate.writeConfirmedMessage T msg d1 d2).frames =
          [encodeBE 8 msg.length, msg]) := by
  intro cfg c msg T d1 d2 hcl hst hbuf hlen
  have h256 : (256 : Nat) ^ 8 = 2 ^ 64 := by norm_num
  refine ⟨?_, ?_, ?_⟩
  · obtain ⟨stg, ml, iid, buf, cl⟩ := c
    simp only at hcl hst hbuf
    subst hcl hst hbuf
    have hhl : (encodeBE 8 msg.length).length = 8 := length_encodeBE 8 msg.length
    have htake : (encodeBE 8 msg.length).take 8 = encodeBE 8 msg.length :=
      List.take_of_length_le (by omega)
    have hdrop : (encodeBE 8 msg.length).drop 8 = [] :=
      List.drop_eq_nil_of_le (by omega)
    have hdec : decodeBE (encodeBE 8 msg.length) = msg.length :=
      decodeBE_encodeBE 8 msg.length (by omega)
    have h1 := (dispatch_connHeader cfg
        { stage := ConnectionStage.StageConnectedHeader, msgLen := ml, instanceId := iid,
          buffer := encodeBE 8 msg.length, closed := false } rfl rfl).2 (by simp [hhl])
    simp only [htake, hdrop, hdec] at h1
    have h2 := dispatch_connBody cfg
        { stage := ConnectionStage.StageConnectedBody, msgLen := msg.length,
          instanceId := iid, buffer := msg, closed := false } rfl rfl (by simp)
    simp only [SingleApplicationPrivate.runConn, List.nil_append, h1, h2]
    simp
  · rcases d1 with _ | x
    · simp [SingleApplicationPrivate.writeConfirmedMessage,
        SingleApplicationPrivate.writeConfirmedFrame]
    · rcases d2 with _ | y
      · by_cases hx : x ≤ T <;>
          simp [SingleApplicationPrivate.writeConfirmedMessage,
            SingleApplicationPrivate.writeConfirmedFrame, hx]
      · by_cases hx : x ≤ T <;> by_cases hy : y ≤ T - x <;>
          simp [SingleApplicationPrivate.writeConfirmedMessage,
            SingleApplicationPrivate.writeConfirmedFrame, hx, hy]
  · intro hok
    rcases d1 with _ | x
    · simp [SingleApplicationPrivate.writeConfirmedMessage,
        SingleApplicationPrivate.writeConfirmedFrame] at hok
    · rcases d2 with _ | y
      · by_cases hx : x ≤ T <;>
          simp [SingleApplicationPrivate.writeConfirmedMessage,
            SingleApplicationPrivate.writeConfirmedFrame, hx] at hok
      · by_cases hx : x ≤ T
        · simp only [SingleApplicationPrivate.writeConfirmedMessage,
            SingleApplicationPrivate.writeConfirmedFrame, hx, if_true, if_pos]
          split <;> rfl
        · simp [SingleApplicationPrivate.writeConfirmedMessage,
            SingleApplicationPrivate.writeConfirmedFrame, hx] at hok

/-- C8 witness: the two byte payload 104 105 at instance nine round trips
concretely, with prompt acknowledgments within a budget of one hundred. -/
theorem C8_witness :
    (SingleApplicationPrivate.runConn
        { blockServerName := [65], secondaryNotification := false }
        { stage := ConnectionStage.StageConnectedHeader, msgLen := 0, instanceId := 9,
          buffer := [], closed := false }
        [encodeBE 8 2, [104, 105]] =
      ({ stage := ConnectionStage.StageConnectedHeader, msgLen := 2, instanceId := 9,
         buffer := [], closed := false }, 2, [Event.receivedMessage 9 [104, 105]])) ∧
    ((SingleApplicationPrivate.writeConfirmedMessage 100 [104, 105]
        (some 1) (some 2)).ok = true ↔
      (∃ x, some 1 = some x ∧ x ≤ 100 ∧ ∃ y, some 2 = some y ∧ y ≤ 100 - x)) ∧
    ((SingleApplicationPrivate.writeConfirmedMessage 100 [104, 105]
        (some 1) (some 2)).ok = true →
      (SingleApplicationPrivate.writeConfirmedMessage 100 [104, 105]
        (some 1) (some 2)).frames = [encodeBE 8 2, [104, 105]]) :=
  C8_frame_roundtrip
    { blockServerName := [65], secondaryNotification := false }
    { stage := ConnectionStage.StageConnectedHeader, msgLen := 0, instanceId := 9,
      buffer := [], closed := false }
    [104, 105] 100 (some 1) (some 2) rfl rfl rfl (by decide)

/-- C3: against an endpoint that never accepts, connectToPrimary with
budget T fails and its total elapsed time stays below T plus one maximal
retry jitter interval, the remaining budget being recomputed after every
step; and no confirmed message write ever consumes more than its budget,
each wait being bounded by the budget left after deducting the elapsed
time of the preceding step. -/
theorem C3_connect_timeout :
    ∀ (T : Nat) (oracle : Nat → ConnectAttempt) (token : List Nat)
      (ct inum : Nat) (d1 d2 : Option Nat) (msg : List Nat),
      (∀ i, (oracle i).connects = false) →
      ((SingleApplicationPrivate.connectToPrimary T false oracle token ct
          inum d1 d2).1 = false ∧
       (SingleApplicationPrivate.connectToPrimary T false oracle token ct
          inum d1 d2).2 < T + 18) ∧
      (SingleApplicationPrivate.writeConfirmedMessage T msg d1 d2).elapsed ≤ T := by
  intro T oracle token ct inum d1 d2 msg hc
  have hl := connectLoop_fail T oracle hc T 0 0 (by omega)
  constructor
  · constructor
    · simp [SingleApplicationPrivate.connectToPrimary, hl.1]
    · have hb := hl.2
      simp only [SingleApplicationPrivate.connectToPrimary, hl.1, Bool.false_eq_true,
        if_false]
      omega
  · rcases d1 with _ | x
    · simp [SingleApplicationPrivate.writeConfirmedMessage,
        SingleApplicationPrivate.writeConfirmedFrame]
    · rcases d2 with _ | y
      · by_cases hx : x ≤ T
        · simp [SingleApplicationPrivate.writeConfirmedMessage,
            SingleApplicationPrivate.writeConfirmedFrame, hx]
        · simp [SingleApplicationPrivate.writeConfirmedMessage,
            SingleApplicationPrivate.writeConfirmedFrame, hx]
      · by_cases hx : x ≤ T
        · by_cases hy : y ≤ T - x
          · simp [SingleApplicationPrivate.writeConfirmedMessage,
              SingleApplicationPrivate.writeConfirmedFrame, hx, hy]
            omega
          · simp [SingleApplicationPrivate.writeConfirmedMessage,
              SingleApplicationPrivate.writeConfirmedFrame, hx, hy]
        · simp [SingleApplicationPrivate.writeConfirmedMessage,
            SingleApplicationPrivate.writeConfirmedFrame, hx]

/-- C3 witness: a budget of twenty milliseconds against an oracle that
never connects. -/
theorem C3_witness :
    ((SingleApplicationPrivate.connectToPrimary 20 false
        (fun _ => { jitterSeed := 0, waitTime := 100, connects := false })
        [65] 1 0 none none).1 = false ∧
     (SingleApplicationPrivate.connectToPrimary 20 false
        (fun _ => { jitterSeed := 0, waitTime := 100, connects := false })
        [65] 1 0 none none).2 < 38) ∧
    (SingleApplicationPrivate.writeConfirmedMessage 20 [1] none none).elapsed ≤ 20 :=
  C3_connect_timeout 20
    (fun _ => { jitterSeed := 0, waitTime := 100, connects := false })
    [65] 1 0 none none [1] (fun _ => rfl)

/-- The two textually duplicated connect loops compute the same function. -/
theorem coreConnectLoop_eq (T : Nat) (oracle : Nat → ConnectAttempt) :
    ∀ d i elapsed, T - elapsed ≤ d →
      SingleCoreApplicationPrivate.connectLoop T oracle i elapsed =
        SingleApplicationPrivate.connectLoop T oracle i elapsed := by
  intro d
  induction d with
  | zero =>
    intro i elapsed hd
    rw [SingleCoreApplicationPrivate.connectLoop, SingleApplicationPrivate.connectLoop]
    split
    · rfl
    · split
      · rfl
      · next h => exact absurd (by omega) h
  | succ d ih =>
    intro i elapsed hd
    rw [SingleCoreApplicationPrivate.connectLoop, SingleApplicationPrivate.connectLoop]
    split
    · rfl
    · split
      · rfl
      · next h =>
        exact ih (i + 1)
          (elapsed + (8 + (oracle i).jitterSeed % 10) +
            min (oracle i).waitTime (T - (elapsed + (8 + (oracle i).jitterSeed % 10))))
          (by omega)

/-- C9: the headless variant SingleCoreApplicationPrivate computes, for
every operation of the coordination core and every input, the same
function as the GUI variant SingleApplicationPrivate: token derivation,
block initialization, primary and secondary start, the block checksum,
the handshake message construction, the confirmed frame and message
writes, the connect loop and connectToPrimary, and the whole per
connection listener state machine. -/
theorem C9_variant_equivalence :
    (∀ o i, SingleCoreApplicationPrivate.genBlockServerName o i =
      SingleApplicationPrivate.genBlockServerName o i) ∧
    (∀ st, SingleCoreApplicationPrivate.initializeMemoryBlock st =
      SingleApplicationPrivate.initializeMemoryBlock st) ∧
    (∀ p u st, SingleCoreApplicationPrivate.startPrimary p u st =
      SingleApplicationPrivate.startPrimary p u st) ∧
    (∀ st, SingleCoreApplicationPrivate.startSecondary st =
      SingleApplicationPrivate.startSecondary st) ∧
    (∀ st, SingleCoreApplicationPrivate.blockChecksum st =
      SingleApplicationPrivate.blockChecksum st) ∧
    (∀ tok ct n, SingleCoreApplicationPrivate.buildInitMsg tok ct n =
      SingleApplicationPrivate.buildInitMsg tok ct n) ∧
    (∀ t f d, SingleCoreApplicationPrivate.writeConfirmedFrame t f d =
      SingleApplicationPrivate.writeConfirmedFrame t f d) ∧
    (∀ t m d1 d2, SingleCoreApplicationPrivate.writeConfirmedMessage t m d1 d2 =
      SingleApplicationPrivate.writeConfirmedMessage t m d1 d2) ∧
    (∀ T o i e, SingleCoreApplicationPrivate.connectLoop T o i e =
      SingleApplicationPrivate.connectLoop T o i e) ∧
    (∀ T a o tok ct n d1 d2,
      SingleCoreApplicationPrivate.connectToPrimary T a o tok ct n d1 d2 =
        SingleApplicationPrivate.connectToPrimary T a o tok ct n d1 d2) ∧
    (∀ ns c, SingleCoreApplicationPrivate.readMessageHeader ns c =
      SingleApplicationPrivate.readMessageHeader ns c) ∧
    (∀ cfg c, SingleCoreApplicationPrivate.readInitMessageBody cfg c =
      SingleApplicationPrivate.readInitMessageBody cfg c) ∧
    (∀ c, SingleCoreApplicationPrivate.slotDataAvailable c =
      SingleApplicationPrivate.slotDataAvailable c) ∧
    (∀ cfg c, SingleCoreApplicationPrivate.dispatch cfg c =
      SingleApplicationPrivate.dispatch cfg c) := by
  have hloop : ∀ T o i e, SingleCoreApplicationPrivate.connectLoop T o i e =
      SingleApplicationPrivate.connectLoop T o i e :=
    fun T o i e => coreConnectLoop_eq T o (T - e) i e (by omega)
  refine ⟨fun o i => rfl, fun st => rfl, fun p u st => rfl, fun st => rfl,
    fun st => rfl, fun tok ct n => rfl, fun t f d => rfl, fun t m d1 d2 => rfl,
    hloop, ?_, fun ns c => rfl, fun cfg c => rfl, fun c => rfl, fun cfg c => rfl⟩
  intro T a o tok ct n d1 d2
  simp only [SingleCoreApplicationPrivate.connectToPrimary,
    SingleApplicationPrivate.connectToPrimary, hloop]
  rfl
